import Mathlib

/-!
Verification of the event-driven synchronization core of the winiMessage-UI
desktop chat client (package `messaging_app`), as a shallow embedding in Lean.

The embedding follows the Python source files:
  - `messaging_app/domain/models.py` (Message, Thread, AppState, ConnectionState, Event),
  - `messaging_app/services/core.py` (EventBus, StateManager),
  - `messaging_app/services/message_service.py` (MessageService),
  - `messaging_app/services/thread_manager.py` (ThreadManager),
  - `messaging_app/controllers/chat_controller.py` (ChatController).

Modelling conventions:
  - Python float timestamps are modelled as rationals.
  - Python dicts are modelled as insertion-ordered association lists; a dict
    object held by reference from several places is modelled as a natural
    number reference into a heap, so that the in-place mutation visible
    through every alias (and the resulting value-level comparison performed
    by `StateManager.update_state`) is represented faithfully.
  - Event publications and observer notifications are recorded in an explicit
    trace, in program order.
  - Exceptions that the Python code catches are modelled with `Except` at the
    boundary where the catch happens; the non-reentrant `threading.Lock` of
    the state store is modelled by an explicit lock flag, where acquiring an
    already-held lock yields the `deadlock` outcome (the Python thread would
    block forever).
-/

namespace WiniMessage

/-- `ConnectionState` from `domain/models.py`. -/
inductive ConnectionState
  | disconnected
  | connecting
  | connected
  | error
deriving DecidableEq, Repr

/-- Attachment records as built by `MessageService` (url + mime type). -/
structure Attachment where
  url : String
  mime_type : String
deriving DecidableEq, Repr

/-- A chat message.  Fields follow the `Message` dataclass of
`domain/models.py` together with the two extra keyword fields
(`attachments`, `guid`) that `MessageService._process_message` passes to the
constructor (the source tree carries divergent snapshots of the model; the
message service is written against the variant that has both fields, and its
polling logic reads `message.guid`). -/
structure Message where
  text : String
  sender_name : String
  timestamp : ℚ
  thread_name : Option String := none
  direction : String := "incoming"
  attachments : List Attachment := []
  message_id : Option String := none
  guid : String := ""
deriving DecidableEq, Repr

/-- A chat thread (`Thread` dataclass of `domain/models.py`). -/
structure Thread where
  guid : String
  name : String
  messages : List Message
  phone_number : Option String := none
  last_read_timestamp : Option ℚ := none
  is_archived : Bool := false
deriving DecidableEq, Repr

/-- `Thread.add_message`: plain append of the new message. -/
def Thread.addMessage (t : Thread) (m : Message) : Thread :=
  { t with messages := t.messages ++ [m] }

/-- Insertion-ordered association list standing for a Python dict of threads. -/
abbrev ThreadDict := List (String × Thread)

/-- Dict read: `d.get(k)` / `d[k]`. -/
def dictGet (d : ThreadDict) (k : String) : Option Thread :=
  match d with
  | [] => none
  | (k', v) :: rest => if k' = k then some v else dictGet rest k

/-- Dict write: `d[k] = v` (updates in place, keeps insertion order,
appends when the key is new). -/
def dictSet (d : ThreadDict) (k : String) (v : Thread) : ThreadDict :=
  match d with
  | [] => [(k, v)]
  | (k', v') :: rest => if k' = k then (k, v) :: rest else (k', v') :: dictSet rest k v

/-- String-keyed lookup for the auxiliary `_thread_names` / message-cache dicts. -/
def strLookup (d : List (String × String)) (k : String) : Option String :=
  match d with
  | [] => none
  | (k', v) :: rest => if k' = k then some v else strLookup rest k

/-- The heap of dict objects; `AppState.threads` and
`ThreadManager._threads` hold references into it. -/
abbrev Heap := Nat → ThreadDict

/-- Heap update at one reference. -/
def heapSet (h : Heap) (r : Nat) (d : ThreadDict) : Heap :=
  fun i => if i = r then d else h i

/-- `AppState` from `domain/models.py`; `threads` is a reference to a dict
object (the Python field holds a pointer to a shared mutable dict). -/
structure AppState where
  connection_state : ConnectionState := .disconnected
  current_thread_guid : Option String := none
  is_polling : Bool := false
  error_message : Option String := none
  threadsRef : Nat := 0
deriving DecidableEq, Repr

/-- The `changes` dict computed by `StateManager.update_state`. -/
structure Changes where
  connection_changed : Bool
  thread_changed : Bool
  polling_changed : Bool
  threads_changed : Bool
deriving DecidableEq, Repr

/-- One observable step of the core: an observer notification or a bus
publication, recorded in program order. -/
inductive Step
  | notifyObserver (idx : Nat) (ok : Bool)
  | publishConnectionChanged (st : ConnectionState)
  | publishThreadSelected (g : Option String)
  | publishStateChanged (old new : AppState) (ch : Changes)
  | publishMessageReceived (thread_guid : String) (m : Message)
  | publishThreadUpdated (thread_guid : String) (message_count : Nat)
  | publishThreadInitialized (guids : List String)
  | publishInitializationComplete (thread_count : Nat)
  | publishErrorOccurred (context : String)
  | mergeIntoThread (thread_guid : String) (msgs : List Message)
deriving DecidableEq, Repr

/-- Failure outcome of taking the store's non-reentrant `threading.Lock`
while it is already held: the calling thread blocks forever. -/
inductive LockFail
  | deadlock
deriving DecidableEq, Repr

/-- `True` exactly on successful handler results. -/
def exceptOk {ε α : Type} : Except ε α → Bool
  | .ok _ => true
  | .error _ => false

/-- The `StateManager` of `services/core.py`: current snapshot plus directly
registered observers (kept as identities, in registration order; their
behaviour is a separate parameter so that throwing observers can be
modelled). -/
structure StateManager where
  state : AppState := {}
  observers : List Nat := []
deriving DecidableEq, Repr

/-- Behaviour of direct state observers: observer identity and the state it
is called with determine whether the call returns or raises. -/
abbrev ObserverBeh := Nat → AppState → Except Unit Unit

/-- The diff computed by `StateManager.update_state` under its lock.  The
`threads` comparison is Python `old_state.threads != updated_state.threads`:
a value comparison of the two dict objects at diff time, so two references
to the same dict always compare equal. -/
def computeChanges (heap : Heap) (old new : AppState) : Changes :=
  { connection_changed := decide (old.connection_state ≠ new.connection_state)
    thread_changed := decide (old.current_thread_guid ≠ new.current_thread_guid)
    polling_changed := decide (old.is_polling ≠ new.is_polling)
    threads_changed := decide (heap old.threadsRef ≠ heap new.threadsRef) }

/-- `StateManager.update_state` (`services/core.py`, lines 147-189).
Under the lock: swap the snapshot and compute the diff.  After releasing the
lock: notify every observer (exceptions caught and logged), publish
`CONNECTION_CHANGED` iff the connection state changed, `THREAD_SELECTED` iff
the current thread changed, and always one `STATE_CHANGED`.  Called with the
lock already held, the acquire at the top blocks forever. -/
def StateManager.updateState (obsBeh : ObserverBeh) (heap : Heap)
    (lockHeld : Bool) (sm : StateManager) (updated : AppState) :
    Except LockFail (StateManager × List Step) :=
  if lockHeld then .error .deadlock
  else
    let old := sm.state
    let changes := computeChanges heap old updated
    let notifications := sm.observers.map
      (fun i => Step.notifyObserver i (exceptOk (obsBeh i updated)))
    let connEvents := if changes.connection_changed then
        [Step.publishConnectionChanged updated.connection_state] else []
    let threadEvents := if changes.thread_changed then
        [Step.publishThreadSelected updated.current_thread_guid] else []
    .ok ({ sm with state := updated },
      notifications ++ connEvents ++ threadEvents ++
        [Step.publishStateChanged old updated changes])

/-- Total wrapper for the lock-free call of `update_state` (the lock is free
whenever `update_state` is entered from outside the store, so this branch is
the one every caller in the codebase exercises except
`update_partial_state`). -/
def StateManager.updateStateRun (obsBeh : ObserverBeh) (heap : Heap)
    (sm : StateManager) (updated : AppState) : StateManager × List Step :=
  match sm.updateState obsBeh heap false updated with
  | .ok r => r
  | .error _ => (sm, [])

/-- The keyword arguments accepted by `StateManager.updatePartialState`
(`update_partial_state` in the source); `none` models an absent kwarg, in
which case the current state's field is kept via `kwargs.get(...)`. -/
structure PartialKwargs where
  connection_state : Option ConnectionState := none
  current_thread_guid : Option (Option String) := none
  is_polling : Option Bool := none
  threadsRef : Option Nat := none
  error_message : Option (Option String) := none

/-- `StateManager.update_partial_state` (`services/core.py`, lines 204-216):
acquires the store lock, builds the merged state, and then calls
`self.update_state(new_state)` while the `with self._lock` block is still
open, i.e. with the lock still held. -/
def StateManager.updatePartialState (obsBeh : ObserverBeh) (heap : Heap)
    (lockHeld : Bool) (sm : StateManager) (kw : PartialKwargs) :
    Except LockFail (StateManager × List Step) :=
  if lockHeld then .error .deadlock
  else
    let cur := sm.state
    let newState : AppState :=
      { connection_state := kw.connection_state.getD cur.connection_state
        current_thread_guid := kw.current_thread_guid.getD cur.current_thread_guid
        is_polling := kw.is_polling.getD cur.is_polling
        threadsRef := kw.threadsRef.getD cur.threadsRef
        error_message := kw.error_message.getD cur.error_message }
    sm.updateState obsBeh heap true newState

/-- Event type tags relevant to the bus model (the `EventType` enum of
`domain/event_types.py`, restricted to the tags exercised here; the bus
logic is uniform in the tag). -/
inductive EventTag
  | messageReceived
  | messageSent
  | threadSelected
  | threadUpdated
  | threadDeleted
  | connectionChanged
  | stateChanged
  | errorOccurred
  | uiRefreshRequested
  | shutdownRequested
deriving DecidableEq, Repr

/-- The `EventBus` of `services/core.py`: a registry mapping event types to
handler identities in registration order.  Handler behaviour is a separate
parameter (`BusBeh`), so that handlers that raise on some or all invocations
can be quantified over. -/
structure EventBus where
  subscribers : List (EventTag × List Nat) := []
deriving DecidableEq, Repr

/-- Behaviour of bus handlers: handler identity and publish round determine
whether the invocation returns or raises. -/
abbrev BusBeh := Nat → Nat → Except String Unit

/-- Registry read for one event type (empty when no one subscribed). -/
def subsGet (subs : List (EventTag × List Nat)) (t : EventTag) : List Nat :=
  match subs with
  | [] => []
  | (t', hs) :: rest => if t' = t then hs else subsGet rest t

/-- `EventBus.subscribe`: appends the handler to the type's list. -/
def EventBus.subscribe (bus : EventBus) (t : EventTag) (h : Nat) : EventBus :=
  { subscribers :=
      if bus.subscribers.any (fun p => p.1 = t) then
        bus.subscribers.map (fun p => if p.1 = t then (p.1, p.2 ++ [h]) else p)
      else
        bus.subscribers ++ [(t, [h])] }

/-- One observable step of a bus publication. -/
inductive BusStep
  | invoked (h : Nat)
  | caughtError (t : EventTag) (h : Nat)
deriving DecidableEq, Repr

/-- `EventBus.publish` (`services/core.py`, lines 51-68): snapshot the
subscriber list for the event's type under the lock, release the lock, then
invoke each handler of the snapshot in order inside its own try/except; a
raising handler is logged with the event type and handler identity and the
loop continues; nothing propagates to the publisher (the function is total
whatever the behaviours are). -/
def EventBus.publish (beh : BusBeh) (round : Nat) (bus : EventBus)
    (t : EventTag) : List BusStep :=
  let snapshot := subsGet bus.subscribers t
  (snapshot.map (fun h =>
    match beh h round with
    | .ok _ => [BusStep.invoked h]
    | .error _ => [BusStep.invoked h, BusStep.caughtError t h])).flatten

/-- `n` consecutive publishes of the same event type (round `0` first);
returns the per-publish traces in order. -/
def EventBus.publishN (beh : BusBeh) (bus : EventBus) (t : EventTag) :
    Nat → List (List BusStep)
  | 0 => []
  | n + 1 => EventBus.publishN beh bus t n ++ [bus.publish beh n t]

/-- The handler identities actually invoked during one publish, in order. -/
def invokedIds (tr : List BusStep) : List Nat :=
  tr.filterMap (fun s =>
    match s with
    | .invoked h => some h
    | .caughtError _ _ => none)

/-- Raw message record of one remote snapshot entry, with the fields that
`MessageService._process_message` reads from the JSON dict.  `timestamp`
carries the result of `normalize_timestamp` (`none` models a missing or
unparsable value, which the service replaces by the current time). -/
structure RawMessage where
  text : Option String := none
  sender_name : Option String := none
  timestamp : Option ℚ := none
  thread_name : Option String := none
  direction : Option String := none
  attachments : List Attachment := []
  message_id : Option String := none
  guid : Option String := none
deriving DecidableEq, Repr

/-- `MessageService._process_message`: build a `Message` from a raw record,
defaulting text to `""`, sender to `"Unknown"`, timestamp to the current
time, direction to `"incoming"`, and guid to `""` (`str(msg.get("guid",
""))`).  For well-typed records no exception is raised, so the Python
`return None` branch of the surrounding try/except is not reachable here. -/
def processMessage (now : ℚ) (msg : RawMessage) : Message :=
  { text := msg.text.getD ""
    sender_name := msg.sender_name.getD "Unknown"
    timestamp := msg.timestamp.getD now
    thread_name := msg.thread_name
    direction := msg.direction.getD "incoming"
    attachments := msg.attachments
    message_id := msg.message_id
    guid := msg.guid.getD "" }

/-- Millisecond epoch of a timestamp: Python `int(message.timestamp * 1000)`
(truncation; timestamps are non-negative Unix seconds, for which integer
division of the numerator agrees with the Python truncation). -/
def msEpoch (q : ℚ) : Int := q.num * 1000 / (q.den : Int)

/-- `MessageService._get_message_key`: the message id when present and
non-empty (Python truthiness), otherwise the composite
`sender:text:milliseconds` key. -/
def getMessageKey (m : Message) : String :=
  let mid := (m.message_id.getD "")
  if mid ≠ "" then mid
  else m.sender_name ++ ":" ++ m.text ++ ":" ++ toString (msEpoch m.timestamp)

/-- Message identity as the specification states it: two messages are the
same logical message iff their ids match when both carry one, and otherwise
iff sender name, text and millisecond-precision timestamp all agree. -/
def sameIdentity (a b : Message) : Bool :=
  match a.message_id, b.message_id with
  | some x, some y => decide (x = y)
  | _, _ =>
      decide (a.sender_name = b.sender_name) && decide (a.text = b.text) &&
        decide (msEpoch a.timestamp = msEpoch b.timestamp)

/-- The `MessageService` state: the per-thread message cache used for
deduplication and the thread-name hints. -/
structure MessageService where
  message_cache : List (String × List Message) := []
  thread_names : List (String × String) := []
deriving DecidableEq, Repr

/-- Cache read (`self._message_cache[thread_guid]`, after the
`not in` guard installed an empty list for unknown keys). -/
def cacheGet (c : List (String × List Message)) (k : String) : List Message :=
  match c with
  | [] => []
  | (k', v) :: rest => if k' = k then v else cacheGet rest k

/-- Cache write, insertion-ordered like a Python dict. -/
def cacheSet (c : List (String × List Message)) (k : String)
    (v : List Message) : List (String × List Message) :=
  match c with
  | [] => [(k, v)]
  | (k', v') :: rest =>
      if k' = k then (k, v) :: rest else (k', v') :: cacheSet rest k v

/-- Remote snapshot: `data["threads"]`, a dict from thread guid to raw
message records. -/
abbrev Snapshot := List (String × List RawMessage)

/-- The per-thread loop body of `MessageService.poll_messages`
(`message_service.py`, lines 178-192): `existing_guids` is computed once
from the cache before the batch is processed; each raw record is processed,
records whose guid is empty are skipped, records whose guid is not in that
pre-computed set are appended to both the update list and the cache.  Two
records with the same guid inside one batch therefore both pass the test.
Returns `(thread_updates, new cache entry)`. -/
def pollThreadMessages (now : ℚ) (cached : List Message)
    (raws : List RawMessage) : List Message × List Message :=
  let existing := cached.map (fun m => m.guid)
  raws.foldl
    (fun acc raw =>
      let m := processMessage now raw
      if m.guid = "" then acc
      else if m.guid ∈ existing then acc
      else (acc.1 ++ [m], acc.2 ++ [m]))
    ([], cached)

/-- `MessageService.poll_messages` (`message_service.py`, lines 162-212),
successful-fetch path: for each thread of the snapshot, compute the new
messages against the cache, extend the cache, and — when any new messages
exist — record the thread in `updates` and publish one `MESSAGE_RECEIVED`
event per new message, in order.  Returns the updated service, the
`updates` dict and the publication trace. -/
def MessageService.pollMessages (now : ℚ) (svc : MessageService)
    (snap : Snapshot) :
    MessageService × List (String × List Message) × List Step :=
  snap.foldl
    (fun acc entry =>
      let tg := entry.1
      let cached := cacheGet acc.1.message_cache tg
      let processed := pollThreadMessages now cached entry.2
      let svcNext : MessageService :=
        { acc.1 with message_cache := cacheSet acc.1.message_cache tg processed.2 }
      if processed.1 = [] then (svcNext, acc.2.1, acc.2.2)
      else
        (svcNext, acc.2.1 ++ [(tg, processed.1)],
          acc.2.2 ++ processed.1.map (fun m => Step.publishMessageReceived tg m)))
    (svc, ([], []))

/-- The mutable world shared by `ThreadManager` and `StateManager`: the
heap of dict objects, the manager's reference to its `_threads` dict and its
`_thread_names` hints, and the state store. -/
structure MgrWorld where
  heap : Heap := fun _ => []
  threadsRef : Nat := 0
  thread_names : List (String × String) := []
  sm : StateManager := {}

/-- `ThreadManager.update_thread` (`thread_manager.py`, lines 169-216):
create the thread in `self._threads` on first reference (name from the
`_thread_names` hints, else `"Unknown"`), append every incoming message via
`Thread.add_message`, then mirror `self._threads` (the same dict object) into
a fresh `AppState` passed to `StateManager.update_state`, and finally publish
`THREAD_UPDATED` with the incoming message count.  The registry mutation is
recorded as a `mergeIntoThread` step at the position where it happens. -/
def updateThread (obsBeh : ObserverBeh) (w : MgrWorld) (guid : String)
    (msgs : List Message) : MgrWorld × List Step :=
  let d := w.heap w.threadsRef
  let t0 : Thread :=
    match dictGet d guid with
    | some t => t
    | none => { guid := guid, name := (strLookup w.thread_names guid).getD "Unknown",
                messages := [] }
  let t1 := msgs.foldl Thread.addMessage t0
  let heap1 := heapSet w.heap w.threadsRef (dictSet d guid t1)
  let cur := w.sm.state
  let newState : AppState :=
    { connection_state := cur.connection_state
      current_thread_guid := cur.current_thread_guid
      is_polling := cur.is_polling
      error_message := none
      threadsRef := w.threadsRef }
  let stepped := StateManager.updateStateRun obsBeh heap1 w.sm newState
  ({ w with heap := heap1, sm := stepped.1 },
    Step.mergeIntoThread guid msgs :: stepped.2 ++
      [Step.publishThreadUpdated guid msgs.length])

/-- The world of one synchronization controller: message service state plus
the shared manager/store world. -/
structure SyncWorld where
  svc : MessageService := {}
  mw : MgrWorld := {}

/-- The success path of one cycle of `ChatController._polling_loop`
(`chat_controller.py`, lines 105-118): `poll_messages` first (which publishes
the `MESSAGE_RECEIVED` events), then `ThreadManager.update_thread` for each
entry of the returned `updates` dict, in order. -/
def pollCycle (obsBeh : ObserverBeh) (now : ℚ) (w : SyncWorld)
    (snap : Snapshot) : SyncWorld × List Step :=
  let polled := MessageService.pollMessages now w.svc snap
  let merged := polled.2.1.foldl
    (fun acc entry =>
      let r := updateThread obsBeh acc.1 entry.1 entry.2
      (r.1, acc.2 ++ r.2))
    (w.mw, [])
  ({ svc := polled.1, mw := merged.1 }, polled.2.2 ++ merged.2)

/-- `ChatController._handle_error` (`chat_controller.py`, lines 270-279),
the controller's synchronous subscriber for `ERROR_OCCURRED` events: it sets
the connection state to `Error` via `_update_state` iff the event's context
is `connection` or `initialization`; all other contexts only get logged. -/
def handleErrorEvent (obsBeh : ObserverBeh) (heap : Heap) (sm : StateManager)
    (ctx : String) : StateManager × List Step :=
  if ctx = "connection" ∨ ctx = "initialization" then
    let cur := sm.state
    let ns : AppState :=
      { connection_state := .error
        current_thread_guid := cur.current_thread_guid
        is_polling := cur.is_polling
        error_message := none
        threadsRef := cur.threadsRef }
    StateManager.updateStateRun obsBeh heap sm ns
  else (sm, [])

/-- Publication of an `ERROR_OCCURRED` event with the given context string,
dispatched to the controller's `_handle_error` subscriber (the only
subscriber of that event type whose effect touches the modelled state). -/
def publishError (obsBeh : ObserverBeh) (heap : Heap) (sm : StateManager)
    (ctx : String) : StateManager × List Step :=
  let handled := handleErrorEvent obsBeh heap sm ctx
  (handled.1, Step.publishErrorOccurred ctx :: handled.2)

/-- Outcome of one fetch of the polling loop: a successful snapshot or a
raised transport error. -/
inductive FetchOutcome
  | success (snap : Snapshot)
  | failure
deriving Repr

/-- `ChatController._polling_loop` (`chat_controller.py`, lines 105-118) run
over a finite schedule of fetch outcomes.  On success: poll, merge each
thread's updates, then `await asyncio.sleep(poll_interval)`.  On a raised
fetch error: `poll_messages` publishes `ERROR_OCCURRED{context:
poll_messages}` and re-raises, the loop body's except block calls
`ErrorHandler.handle_error(e, "message_polling")` (which publishes
`ERROR_OCCURRED{context: message_polling}`), then sleeps
`poll_interval * 2`.  Returns the final world, the step trace, and the list
of sleep durations in cycle order. -/
def pollingLoop (obsBeh : ObserverBeh) (now base : ℚ) :
    List FetchOutcome → SyncWorld → SyncWorld × List Step × List ℚ
  | [], w => (w, [], [])
  | .success snap :: rest, w =>
      let cyc := pollCycle obsBeh now w snap
      let cont := pollingLoop obsBeh now base rest cyc.1
      (cont.1, cyc.2 ++ cont.2.1, base :: cont.2.2)
  | .failure :: rest, w =>
      let e1 := publishError obsBeh w.mw.heap w.mw.sm "poll_messages"
      let e2 := publishError obsBeh w.mw.heap e1.1 "message_polling"
      let w1 : SyncWorld := { w with mw := { w.mw with sm := e2.1 } }
      let cont := pollingLoop obsBeh now base rest w1
      (cont.1, e1.2 ++ e2.2 ++ cont.2.1, base * 2 :: cont.2.2)

/-- `ChatController._update_state` (`chat_controller.py`, lines 318-327):
read the current state, rebuild it with the given connection state (the
`error_message` kwarg is omitted, so it resets to `None`), and hand it to
the store. -/
def ctrlUpdateConn (obsBeh : ObserverBeh) (w : MgrWorld)
    (cs : ConnectionState) : MgrWorld × List Step :=
  let cur := w.sm.state
  let ns : AppState :=
    { connection_state := cs
      current_thread_guid := cur.current_thread_guid
      is_polling := cur.is_polling
      error_message := none
      threadsRef := cur.threadsRef }
  let stepped := StateManager.updateStateRun obsBeh w.heap w.sm ns
  ({ w with sm := stepped.1 }, stepped.2)

/-- `ChatController._update_state_polling`: same rebuild with the polling
flag replaced. -/
def ctrlUpdatePolling (obsBeh : ObserverBeh) (w : MgrWorld) (b : Bool) :
    MgrWorld × List Step :=
  let cur := w.sm.state
  let ns : AppState :=
    { connection_state := cur.connection_state
      current_thread_guid := cur.current_thread_guid
      is_polling := b
      error_message := none
      threadsRef := cur.threadsRef }
  let stepped := StateManager.updateStateRun obsBeh w.heap w.sm ns
  ({ w with sm := stepped.1 }, stepped.2)

/-- The controller-level world: the shared manager/store world plus the
`_polling_active` flag of `ChatController`. -/
structure CtrlWorld where
  mw : MgrWorld := {}
  polling_active : Bool := false

/-- Outcome of the seed fetch performed by
`ThreadManager.initialize_threads`: the fetched thread dict and name hints,
or a raised fetch error. -/
inductive SeedOutcome
  | seedOk (threads : ThreadDict) (names : List (String × String))
  | seedFail
deriving Repr

/-- `ChatController.initialize` (`chat_controller.py`, lines 79-96) composed
with `ThreadManager.initialize_threads` (`thread_manager.py`, lines 40-92)
and the error path of `MessageService.initialize_threads`.

Success path: set `Connecting`; the manager rebinds `self._threads` to the
freshly fetched dict (a new object, modelled by the fresh reference
`freshRef`), publishes `THREAD_INITIALIZED`, mirrors the new dict into the
state, publishes `INITIALIZATION_COMPLETE`; then the controller sets
`Connected`, flips `_polling_active`, sets the polling flag in the state and
schedules `_polling_loop`.

Failure path: the fetch raises inside `MessageService.initialize_threads`,
which publishes `ERROR_OCCURRED{context: initialize_threads}` and re-raises;
`ThreadManager.initialize_threads` catches, publishes
`ERROR_OCCURRED{context: thread_initialization}` and re-raises; the
controller's except block calls `ErrorHandler.handle_error(e,
"controller_initialization")` (one more `ERROR_OCCURRED`) and then sets the
state to `Error`.  `_start_polling()` sits after the seed fetch inside the
`try`, so it is never reached on failure and `_polling_active` keeps its
old value. -/
def initializeCtrl (obsBeh : ObserverBeh) (freshRef : Nat)
    (outcome : SeedOutcome) (w : CtrlWorld) : CtrlWorld × List Step :=
  let connecting := ctrlUpdateConn obsBeh w.mw .connecting
  match outcome with
  | .seedOk threads names =>
      let heap1 := heapSet connecting.1.heap freshRef threads
      let mw1 : MgrWorld :=
        { connecting.1 with heap := heap1, threadsRef := freshRef, thread_names := names }
      let evInit := [Step.publishThreadInitialized (threads.map (fun p => p.1))]
      let cur := mw1.sm.state
      let ns : AppState :=
        { connection_state := cur.connection_state
          current_thread_guid := cur.current_thread_guid
          is_polling := cur.is_polling
          error_message := none
          threadsRef := freshRef }
      let mirrored := StateManager.updateStateRun obsBeh heap1 mw1.sm ns
      let mw2 := { mw1 with sm := mirrored.1 }
      let evDone := [Step.publishInitializationComplete threads.length]
      let connected := ctrlUpdateConn obsBeh mw2 .connected
      let polling := ctrlUpdatePolling obsBeh connected.1 true
      ({ mw := polling.1, polling_active := true },
        connecting.2 ++ evInit ++ mirrored.2 ++ evDone ++ connected.2 ++ polling.2)
  | .seedFail =>
      let e1 := publishError obsBeh connecting.1.heap connecting.1.sm "initialize_threads"
      let e2 := publishError obsBeh connecting.1.heap e1.1 "thread_initialization"
      let e3 := publishError obsBeh connecting.1.heap e2.1 "controller_initialization"
      let mwErr := { connecting.1 with sm := e3.1 }
      let errored := ctrlUpdateConn obsBeh mwErr .error
      ({ mw := errored.1, polling_active := w.polling_active },
        connecting.2 ++ e1.2 ++ e2.2 ++ e3.2 ++ errored.2)

/-- The `ERROR_OCCURRED` context strings present in a trace, in order. -/
def errorContexts (tr : List Step) : List String :=
  tr.filterMap (fun s =>
    match s with
    | .publishErrorOccurred ctx => some ctx
    | _ => none)

/-- The `changes` payloads of the `STATE_CHANGED` events of a trace. -/
def stateChangedFlags (tr : List Step) : List Changes :=
  tr.filterMap (fun s =>
    match s with
    | .publishStateChanged _ _ ch => some ch
    | _ => none)

/-- Whether a step is a `MESSAGE_RECEIVED` publication. -/
def isMessageReceivedStep : Step → Bool
  | .publishMessageReceived _ _ => true
  | _ => false

/-- Whether a step is a registry merge. -/
def isMergeStep : Step → Bool
  | .mergeIntoThread _ _ => true
  | _ => false

/-- Whether a step is an observer notification. -/
def isNotifyStep : Step → Bool
  | .notifyObserver _ _ => true
  | _ => false

/-- Whether a step is a `CONNECTION_CHANGED` publication. -/
def isConnEv : Step → Bool
  | .publishConnectionChanged _ => true
  | _ => false

/-- Whether a step is a `THREAD_SELECTED` publication. -/
def isThreadSelEv : Step → Bool
  | .publishThreadSelected _ => true
  | _ => false

/-- Whether a step is a `STATE_CHANGED` publication. -/
def isStateChangedEv : Step → Bool
  | .publishStateChanged _ _ _ => true
  | _ => false

/-- Non-decreasing by timestamp, the ordering property the specification
asserts for `Thread.messages`. -/
def sortedByTs : List Message → Bool
  | [] => true
  | [_] => true
  | a :: b :: rest => decide (a.timestamp ≤ b.timestamp) && sortedByTs (b :: rest)

/-- The claim-as-stated ordering property of one poll cycle: every
`MESSAGE_RECEIVED` publication is preceded by a merge of that same message
into that thread. -/
def mergesPrecedeEvents (tr : List Step) : Bool :=
  (List.range tr.length).all (fun j =>
    match tr[j]? with
    | some (.publishMessageReceived tg m) =>
        (tr.take j).any (fun s =>
          match s with
          | .mergeIntoThread tg' msgs => tg' = tg && m ∈ msgs
          | _ => false)
    | _ => true)

/-- Whether a fetch outcome is a raised transport error. -/
def isFailure : FetchOutcome → Bool
  | .failure => true
  | .success _ => false

/-- The sleep duration the loop body chooses for one cycle: the base poll
interval on success, the doubled interval on a raised fetch error. -/
def expectedSleep (base : ℚ) : FetchOutcome → ℚ
  | .failure => base * 2
  | .success _ => base

/-- Steps a `StateManager.update_state` call can emit. -/
def isStateStoreStep (s : Step) : Bool :=
  isNotifyStep s || isConnEv s || isThreadSelEv s || isStateChangedEv s

/-- Observer behaviour that always returns: used to instantiate concrete
runs. -/
def okObs : ObserverBeh := fun _ _ => Except.ok ()

/-- Concrete message fixture (timestamp 100). -/
def msgA : Message := { text := "a", sender_name := "s", timestamp := 100 }

/-- Concrete message fixture (timestamp 200). -/
def msgB : Message := { text := "b", sender_name := "s", timestamp := 200 }

/-- Concrete message fixture with a timestamp earlier than `msgA`. -/
def msgEarly : Message := { text := "c", sender_name := "s", timestamp := 50 }

/-- A thread holding just `msgA`. -/
def threadT : Thread := { guid := "T", name := "T", messages := [msgA] }

/-- A manager/store world whose dict (reference 0) holds `threadT` and whose
state already mirrors that dict, as it does after any earlier mirror. -/
def mirroredWorld : MgrWorld := { heap := fun _ => [("T", threadT)] }

/-- A raw remote record that carries a message id but no transport guid —
the shape the identity rule's composite/id fallback is meant for. -/
def rawNoGuid : RawMessage :=
  { text := some "hi", sender_name := some "alice", timestamp := some 100,
    message_id := some "m1" }

/-- A raw remote record with both a message id and a transport guid. -/
def rawG : RawMessage :=
  { text := some "hi", sender_name := some "alice", timestamp := some 100,
    message_id := some "m1", guid := some "g1" }

section Theorems

/-! Helper lemmas shared by several claims. -/

theorem filter_map_all {α : Type} (p : Step → Bool) (f : α → Step)
    (h : ∀ a, p (f a) = true) (l : List α) :
    (l.map f).filter p = l.map f := by
  induction l with
  | nil => rfl
  | cons a l ih => simp [List.filter, h a, ih]

theorem filter_map_none {α : Type} (p : Step → Bool) (f : α → Step)
    (h : ∀ a, p (f a) = false) (l : List α) :
    (l.map f).filter p = [] := by
  induction l with
  | nil => rfl
  | cons a l ih => simp [List.filter, h a, ih]

theorem foldl_addMessage (msgs : List Message) (t : Thread) :
    (msgs.foldl Thread.addMessage t).messages = t.messages ++ msgs := by
  induction msgs generalizing t with
  | nil => simp
  | cons m rest ih => simp [ih, Thread.addMessage]

theorem dictGet_dictSet (d : ThreadDict) (k : String) (v : Thread) :
    dictGet (dictSet d k v) k = some v := by
  induction d with
  | nil => simp [dictSet, dictGet]
  | cons p rest ih =>
      by_cases h : p.1 = k
      · simp [dictSet, dictGet, h]
      · simp [dictSet, dictGet, h, ih]

theorem updateStateRun_eq (obsBeh : ObserverBeh) (heap : Heap)
    (sm : StateManager) (ns : AppState) :
    StateManager.updateStateRun obsBeh heap sm ns =
      ({ sm with state := ns },
        sm.observers.map (fun i => Step.notifyObserver i (exceptOk (obsBeh i ns))) ++
          ((if (computeChanges heap sm.state ns).connection_changed then
              [Step.publishConnectionChanged ns.connection_state] else []) ++
            ((if (computeChanges heap sm.state ns).thread_changed then
                [Step.publishThreadSelected ns.current_thread_guid] else []) ++
              [Step.publishStateChanged sm.state ns (computeChanges heap sm.state ns)]))) := by
  simp [StateManager.updateStateRun, StateManager.updateState]

theorem updateStateRun_mem (obsBeh : ObserverBeh) (heap : Heap)
    (sm : StateManager) (ns : AppState) (s : Step)
    (hs : s ∈ (StateManager.updateStateRun obsBeh heap sm ns).2) :
    isStateStoreStep s = true := by
  rw [updateStateRun_eq] at hs
  simp only [List.mem_append] at hs
  rcases hs with h | h | h | h
  · obtain ⟨i, _, rfl⟩ := List.mem_map.mp h
    rfl
  · split at h
    · rcases List.mem_singleton.mp h with rfl
      rfl
    · cases h
  · split at h
    · rcases List.mem_singleton.mp h with rfl
      rfl
    · cases h
  · rcases List.mem_singleton.mp h with rfl
    rfl

/-- C9.  `StateManager.update_partial_state` acquires the store's
non-reentrant lock and, still inside that critical section, calls
`update_state`, whose own acquire of the same lock then blocks forever:
every invocation, whatever the keyword arguments, the observer behaviours,
the heap and the store's contents, ends in the deadlock outcome instead of
returning. -/
theorem updatePartialState_always_deadlocks (obsBeh : ObserverBeh)
    (heap : Heap) (lockHeld : Bool) (sm : StateManager) (kw : PartialKwargs) :
    StateManager.updatePartialState obsBeh heap lockHeld sm kw =
      Except.error LockFail.deadlock := by
  cases lockHeld <;>
    simp [StateManager.updatePartialState, StateManager.updateState]

theorem filter_notifyMap_self (b : Nat → Bool) (obs : List Nat) :
    (obs.map (fun i => Step.notifyObserver i (b i))).filter isNotifyStep =
      obs.map (fun i => Step.notifyObserver i (b i)) :=
  filter_map_all isNotifyStep (fun i => Step.notifyObserver i (b i)) (fun _ => rfl) obs

theorem filter_notifyMap_conn (b : Nat → Bool) (obs : List Nat) :
    (obs.map (fun i => Step.notifyObserver i (b i))).filter isConnEv = [] :=
  filter_map_none isConnEv (fun i => Step.notifyObserver i (b i)) (fun _ => rfl) obs

theorem filter_notifyMap_threadSel (b : Nat → Bool) (obs : List Nat) :
    (obs.map (fun i => Step.notifyObserver i (b i))).filter isThreadSelEv = [] :=
  filter_map_none isThreadSelEv (fun i => Step.notifyObserver i (b i)) (fun _ => rfl) obs

theorem filter_notifyMap_stateChanged (b : Nat → Bool) (obs : List Nat) :
    (obs.map (fun i => Step.notifyObserver i (b i))).filter isStateChangedEv = [] :=
  filter_map_none isStateChangedEv (fun i => Step.notifyObserver i (b i)) (fun _ => rfl) obs

theorem filter_notifyMap_pubs (b : Nat → Bool) (obs : List Nat) :
    (obs.map (fun i => Step.notifyObserver i (b i))).filter
        (fun s => isConnEv s || isThreadSelEv s || isStateChangedEv s) = [] :=
  filter_map_none (fun s => isConnEv s || isThreadSelEv s || isStateChangedEv s)
    (fun i => Step.notifyObserver i (b i)) (fun _ => rfl) obs

/-- C4.  For every `update_state(new)` call entered with the lock free: the
call returns (first conjunct), the snapshot is swapped to `new`, a
`CONNECTION_CHANGED` event is published iff the connection state changed, a
`THREAD_SELECTED` event iff the current thread guid changed, exactly one
`STATE_CHANGED` event is always published, the whole trace is the observer
notifications followed by `CONNECTION_CHANGED`, `THREAD_SELECTED` and
`STATE_CHANGED` in that fixed relative order, and in the particular case
`old = Connecting`, `new = Connected`, thread unchanged, the published
events are one `CONNECTION_CHANGED` then exactly one `STATE_CHANGED` and no
`THREAD_SELECTED`. -/
theorem updateState_diff_events (obsBeh : ObserverBeh) (heap : Heap)
    (sm : StateManager) (ns : AppState) :
    StateManager.updateState obsBeh heap false sm ns =
        Except.ok (StateManager.updateStateRun obsBeh heap sm ns) ∧
    (StateManager.updateStateRun obsBeh heap sm ns).1.state = ns ∧
    ((StateManager.updateStateRun obsBeh heap sm ns).2.filter isNotifyStep =
      sm.observers.map (fun i => Step.notifyObserver i (exceptOk (obsBeh i ns)))) ∧
    ((StateManager.updateStateRun obsBeh heap sm ns).2.filter isConnEv =
      if sm.state.connection_state ≠ ns.connection_state then
        [Step.publishConnectionChanged ns.connection_state] else []) ∧
    ((StateManager.updateStateRun obsBeh heap sm ns).2.filter isThreadSelEv =
      if sm.state.current_thread_guid ≠ ns.current_thread_guid then
        [Step.publishThreadSelected ns.current_thread_guid] else []) ∧
    ((StateManager.updateStateRun obsBeh heap sm ns).2.filter isStateChangedEv =
      [Step.publishStateChanged sm.state ns (computeChanges heap sm.state ns)]) ∧
    ((StateManager.updateStateRun obsBeh heap sm ns).2 =
      (StateManager.updateStateRun obsBeh heap sm ns).2.filter isNotifyStep ++
        (StateManager.updateStateRun obsBeh heap sm ns).2.filter isConnEv ++
        (StateManager.updateStateRun obsBeh heap sm ns).2.filter isThreadSelEv ++
        (StateManager.updateStateRun obsBeh heap sm ns).2.filter isStateChangedEv) ∧
    (sm.state.connection_state = ConnectionState.connecting →
      ns.connection_state = ConnectionState.connected →
      sm.state.current_thread_guid = ns.current_thread_guid →
      (StateManager.updateStateRun obsBeh heap sm ns).2.filter
          (fun s => isConnEv s || isThreadSelEv s || isStateChangedEv s) =
        [Step.publishConnectionChanged ConnectionState.connected,
          Step.publishStateChanged sm.state ns (computeChanges heap sm.state ns)]) := by
  have hrun := updateStateRun_eq obsBeh heap sm ns
  refine ⟨by simp [StateManager.updateStateRun, StateManager.updateState],
    by rw [hrun], ?_, ?_, ?_, ?_, ?_, ?_⟩
  · rw [hrun]
    by_cases hc : sm.state.connection_state = ns.connection_state <;>
      by_cases ht : sm.state.current_thread_guid = ns.current_thread_guid <;>
        simp [computeChanges, hc, ht, List.filter_append, filter_notifyMap_self,
          isNotifyStep, isConnEv, isThreadSelEv, isStateChangedEv]
  · rw [hrun]
    by_cases hc : sm.state.connection_state = ns.connection_state <;>
      by_cases ht : sm.state.current_thread_guid = ns.current_thread_guid <;>
        simp [computeChanges, hc, ht, List.filter_append, filter_notifyMap_conn,
          isNotifyStep, isConnEv, isThreadSelEv, isStateChangedEv]
  · rw [hrun]
    by_cases hc : sm.state.connection_state = ns.connection_state <;>
      by_cases ht : sm.state.current_thread_guid = ns.current_thread_guid <;>
        simp [computeChanges, hc, ht, List.filter_append, filter_notifyMap_threadSel,
          isNotifyStep, isConnEv, isThreadSelEv, isStateChangedEv]
  · rw [hrun]
    by_cases hc : sm.state.connection_state = ns.connection_state <;>
      by_cases ht : sm.state.current_thread_guid = ns.current_thread_guid <;>
        simp [computeChanges, hc, ht, List.filter_append, filter_notifyMap_stateChanged,
          isNotifyStep, isConnEv, isThreadSelEv, isStateChangedEv]
  · rw [hrun]
    by_cases hc : sm.state.connection_state = ns.connection_state <;>
      by_cases ht : sm.state.current_thread_guid = ns.current_thread_guid <;>
        simp [computeChanges, hc, ht, List.filter_append, filter_notifyMap_self,
          filter_notifyMap_conn, filter_notifyMap_threadSel, filter_notifyMap_stateChanged,
          isNotifyStep, isConnEv, isThreadSelEv, isStateChangedEv]
  · intro h1 h2 h3
    rw [hrun]
    have hcc : (computeChanges heap sm.state ns).connection_changed = true := by
      simp [computeChanges, h1, h2]
    have htc : (computeChanges heap sm.state ns).thread_changed = false := by
      simp [computeChanges, h3]
    rw [List.filter_append, filter_notifyMap_pubs, hcc, htc, h2]
    simp [List.filter, isConnEv, isThreadSelEv, isStateChangedEv]

/-- C4 witness: a concrete `Connecting → Connected` update with the current
thread unchanged, instantiating the theorem and discharging the scenario
hypotheses. -/
theorem updateState_diff_events_witness :
    (StateManager.updateStateRun (fun _ _ => Except.ok ()) (fun _ => [])
        { state := { connection_state := ConnectionState.connecting,
                     current_thread_guid := some "T" }, observers := [7] }
        { connection_state := ConnectionState.connected,
          current_thread_guid := some "T" }).2.filter
        (fun s => isConnEv s || isThreadSelEv s || isStateChangedEv s) =
      [Step.publishConnectionChanged ConnectionState.connected,
        Step.publishStateChanged
          { connection_state := ConnectionState.connecting,
            current_thread_guid := some "T" }
          { connection_state := ConnectionState.connected,
            current_thread_guid := some "T" }
          (computeChanges (fun _ => [])
            { connection_state := ConnectionState.connecting,
              current_thread_guid := some "T" }
            { connection_state := ConnectionState.connected,
              current_thread_guid := some "T" })] :=
  (updateState_diff_events (fun _ _ => Except.ok ()) (fun _ => [])
      { state := { connection_state := ConnectionState.connecting,
                   current_thread_guid := some "T" }, observers := [7] }
      { connection_state := ConnectionState.connected,
        current_thread_guid := some "T" }).2.2.2.2.2.2.2 rfl rfl rfl

theorem invokedIds_publish (beh : BusBeh) (round : Nat) (bus : EventBus)
    (t : EventTag) :
    invokedIds (bus.publish beh round t) = subsGet bus.subscribers t := by
  unfold EventBus.publish invokedIds
  induction subsGet bus.subscribers t with
  | nil => rfl
  | cons h rest ih =>
      cases hb : beh h round <;>
        simp [List.filterMap_append, hb] <;> simpa [invokedIds] using ih

/-- C8.  For every event type, any handler behaviours (including handlers
that raise on every invocation) and any number of consecutive publishes:
each publish happens (one trace per publish), every subscribed handler is
invoked, in registration order, whatever any earlier handler did (second
conjunct), and a raising handler is caught and logged with the event type
and its identity rather than letting the exception escape (third conjunct;
`publish` is total, so nothing ever propagates to the publisher). -/
theorem eventBus_handler_isolation (bus : EventBus) (t : EventTag)
    (beh : BusBeh) (n : Nat) :
    (EventBus.publishN beh bus t n).length = n ∧
    (∀ tr ∈ EventBus.publishN beh bus t n,
      invokedIds tr = subsGet bus.subscribers t) ∧
    (∀ r h, h ∈ subsGet bus.subscribers t → exceptOk (beh h r) = false →
      BusStep.caughtError t h ∈ bus.publish beh r t) := by
  refine ⟨?_, ?_, ?_⟩
  · induction n with
    | zero => rfl
    | succ m ih => simp [EventBus.publishN, ih]
  · induction n with
    | zero => simp [EventBus.publishN]
    | succ m ih =>
        intro tr htr
        rw [EventBus.publishN] at htr
        rcases List.mem_append.mp htr with h | h
        · exact ih tr h
        · rcases List.mem_singleton.mp h with rfl
          exact invokedIds_publish beh m bus t
  · intro r h hmem hfail
    unfold EventBus.publish
    rcases hb : beh h r with v | e
    · refine List.mem_flatten.mpr ⟨[BusStep.invoked h, BusStep.caughtError t h], ?_, ?_⟩
      · refine List.mem_map.mpr ⟨h, hmem, ?_⟩
        rw [hb]
      · simp
    · rw [hb] at hfail
      simp [exceptOk] at hfail

/-- C8 witness: two handlers subscribed to `ERROR_OCCURRED`, the first of
which raises on every invocation, across three consecutive publishes: each
publish still invokes both handlers in registration order, and the failure
of handler 1 is caught and logged. -/
theorem eventBus_handler_isolation_witness :
    invokedIds (EventBus.publish
        (fun h _ => if h = 1 then Except.error "boom" else Except.ok ()) 2
        { subscribers := [(EventTag.errorOccurred, [1, 2])] }
        EventTag.errorOccurred) = [1, 2] ∧
    BusStep.caughtError EventTag.errorOccurred 1 ∈
      EventBus.publish
        (fun h _ => if h = 1 then Except.error "boom" else Except.ok ()) 1
        { subscribers := [(EventTag.errorOccurred, [1, 2])] }
        EventTag.errorOccurred ∧
    (EventBus.publishN
        (fun h _ => if h = 1 then Except.error "boom" else Except.ok ())
        { subscribers := [(EventTag.errorOccurred, [1, 2])] }
        EventTag.errorOccurred 3).length = 3 :=
  ⟨(eventBus_handler_isolation { subscribers := [(EventTag.errorOccurred, [1, 2])] }
      EventTag.errorOccurred
      (fun h _ => if h = 1 then Except.error "boom" else Except.ok ()) 3).2.1 _
      (by simp [EventBus.publishN]),
    (eventBus_handler_isolation { subscribers := [(EventTag.errorOccurred, [1, 2])] }
      EventTag.errorOccurred
      (fun h _ => if h = 1 then Except.error "boom" else Except.ok ()) 3).2.2 1 1
      (by decide) (by decide),
    (eventBus_handler_isolation { subscribers := [(EventTag.errorOccurred, [1, 2])] }
      EventTag.errorOccurred
      (fun h _ => if h = 1 then Except.error "boom" else Except.ok ()) 3).1⟩

theorem count_expectedSleep (base : ℚ) (hb : base ≠ base * 2)
    (l : List FetchOutcome) :
    (l.map (expectedSleep base)).count (base * 2) = l.countP isFailure := by
  induction l with
  | nil => rfl
  | cons o rest ih =>
      cases o with
      | success snap =>
          simpa [expectedSleep, isFailure, List.count_cons, hb.symm] using ih
      | failure =>
          simp [expectedSleep, isFailure, List.count_cons, ih]

/-- C5.  The sleeps of the polling loop: each cycle sleeps exactly the base
interval on a successful fetch and exactly the doubled interval on a failed
fetch, whatever happened on earlier cycles (first conjunct; in particular,
backoff never compounds).  Hence, for a schedule with exactly one failing
fetch, the loop sleeps `base * 2` exactly once, and the base interval after
every successful cycle. -/
theorem pollingLoop_backoff (obsBeh : ObserverBeh) (now base : ℚ)
    (outcomes : List FetchOutcome) (w : SyncWorld) :
    (pollingLoop obsBeh now base outcomes w).2.2 =
        outcomes.map (expectedSleep base) ∧
    (0 < base → outcomes.countP isFailure = 1 →
      ((pollingLoop obsBeh now base outcomes w).2.2.count (base * 2) = 1 ∧
        ∀ (i : Nat) (snap : Snapshot),
          outcomes[i]? = some (FetchOutcome.success snap) →
          (pollingLoop obsBeh now base outcomes w).2.2[i]? = some base)) := by
  have hmap : ∀ (l : List FetchOutcome) (v : SyncWorld),
      (pollingLoop obsBeh now base l v).2.2 = l.map (expectedSleep base) := by
    intro l
    induction l with
    | nil => intro v; rfl
    | cons o rest ih =>
        intro v
        cases o <;> simp [pollingLoop, expectedSleep, ih]
  refine ⟨hmap outcomes w, ?_⟩
  intro hpos hone
  have hne : base ≠ base * 2 := by
    intro h
    have : base = 0 := by linarith
    exact absurd this (ne_of_gt hpos)
  constructor
  · rw [hmap outcomes w, count_expectedSleep base hne outcomes, hone]
  · intro i snap hi
    rw [hmap outcomes w, List.getElem?_map, hi]
    rfl

/-- C5 witness: a three-cycle schedule whose second fetch fails, with base
interval 2: the sleeps are `[2, 4, 2]`, the doubled interval occurs exactly
once, and both successful cycles sleep the base interval. -/
theorem pollingLoop_backoff_witness :
    (pollingLoop (fun _ _ => Except.ok ()) 0 2
        [FetchOutcome.success [], FetchOutcome.failure, FetchOutcome.success []]
        {}).2.2.count (2 * 2) = 1 ∧
    (pollingLoop (fun _ _ => Except.ok ()) 0 2
        [FetchOutcome.success [], FetchOutcome.failure, FetchOutcome.success []]
        {}).2.2[0]? = some 2 ∧
    (pollingLoop (fun _ _ => Except.ok ()) 0 2
        [FetchOutcome.success [], FetchOutcome.failure, FetchOutcome.success []]
        {}).2.2[2]? = some 2 :=
  ⟨((pollingLoop_backoff (fun _ _ => Except.ok ()) 0 2
        [FetchOutcome.success [], FetchOutcome.failure, FetchOutcome.success []]
        {}).2 (by norm_num) (by decide)).1,
    ((pollingLoop_backoff (fun _ _ => Except.ok ()) 0 2
        [FetchOutcome.success [], FetchOutcome.failure, FetchOutcome.success []]
        {}).2 (by norm_num) (by decide)).2 0 [] rfl,
    ((pollingLoop_backoff (fun _ _ => Except.ok ()) 0 2
        [FetchOutcome.success [], FetchOutcome.failure, FetchOutcome.success []]
        {}).2 (by norm_num) (by decide)).2 2 [] rfl⟩

theorem updateThread_conn (obsBeh : ObserverBeh) (w : MgrWorld) (guid : String)
    (msgs : List Message) :
    (updateThread obsBeh w guid msgs).1.sm.state.connection_state =
      w.sm.state.connection_state := by
  simp [updateThread, updateStateRun_eq]

theorem mergeFold_conn (obsBeh : ObserverBeh)
    (l : List (String × List Message)) (p : MgrWorld × List Step) :
    ((l.foldl (fun acc entry =>
        ((updateThread obsBeh acc.1 entry.1 entry.2).1,
          acc.2 ++ (updateThread obsBeh acc.1 entry.1 entry.2).2)) p).1).sm.state.connection_state =
      p.1.sm.state.connection_state := by
  induction l generalizing p with
  | nil => rfl
  | cons e rest ih =>
      rw [List.foldl_cons, ih]
      exact updateThread_conn obsBeh p.1 e.1 e.2

theorem pollCycle_conn (obsBeh : ObserverBeh) (now : ℚ) (w : SyncWorld)
    (snap : Snapshot) :
    (pollCycle obsBeh now w snap).1.mw.sm.state.connection_state =
      w.mw.sm.state.connection_state := by
  have h := mergeFold_conn obsBeh
    (MessageService.pollMessages now w.svc snap).2.1 (w.mw, [])
  simpa [pollCycle] using h

theorem publishError_poll_conn (obsBeh : ObserverBeh) (heap : Heap)
    (sm : StateManager) :
    (publishError obsBeh heap sm "poll_messages").1 = sm ∧
    (publishError obsBeh heap sm "message_polling").1 = sm := by
  constructor <;> simp [publishError, handleErrorEvent]

/-- C7 (amended).  Poll cycles leave the connection state untouched: neither
a raised fetch error (whose `ERROR_OCCURRED` events carry the contexts
`poll_messages` and `message_polling`, which `_handle_error` does not map to
an `Error` state) nor a successful cycle (whose state mirror copies the
existing connection state) changes `getState().connection_state`.  In the
two-cycle fail-then-succeed run of the claim, a controller that was
`Connected` is therefore still `Connected` immediately after cycle 1 and
after cycle 2, never `Error`. -/
theorem pollingLoop_conn_unchanged (obsBeh : ObserverBeh) (now base : ℚ)
    (outcomes : List FetchOutcome) (w : SyncWorld) :
    (pollingLoop obsBeh now base outcomes w).1.mw.sm.state.connection_state =
      w.mw.sm.state.connection_state := by
  induction outcomes generalizing w with
  | nil => rfl
  | cons o rest ih =>
      cases o with
      | success snap =>
          rw [pollingLoop, ih, pollCycle_conn]
      | failure =>
          rw [pollingLoop, ih]
          simp [publishError, handleErrorEvent]

/-- C7 counterexample: with the state `Connected` (as it is once
initialization succeeded), a failing fetch on cycle 1 leaves the observed
connection state `Connected`, not `Error` as the claim asserts; the
subsequent successful cycle also leaves it `Connected`. -/
theorem pollingLoop_conn_counterexample :
    (pollingLoop (fun _ _ => Except.ok ()) 0 2 [FetchOutcome.failure]
        { mw := { sm := { state := { connection_state := ConnectionState.connected } } } }).1.mw.sm.state.connection_state =
      ConnectionState.connected ∧
    (pollingLoop (fun _ _ => Except.ok ()) 0 2
        [FetchOutcome.failure,
          FetchOutcome.success [("T1", [{ text := some "hi", sender_name := some "alice",
                                          timestamp := some 100, message_id := some "m1",
                                          guid := some "g1" }])]]
        { mw := { sm := { state := { connection_state := ConnectionState.connected } } } }).1.mw.sm.state.connection_state =
      ConnectionState.connected ∧
    ConnectionState.connected ≠ ConnectionState.error := by
  refine ⟨rfl, rfl, by decide⟩

theorem errorContexts_append (a b : List Step) :
    errorContexts (a ++ b) = errorContexts a ++ errorContexts b :=
  List.filterMap_append a b _

theorem errorContexts_cons_err (ctx : String) (rest : List Step) :
    errorContexts (Step.publishErrorOccurred ctx :: rest) =
      ctx :: errorContexts rest := by
  simp [errorContexts]

theorem errorContexts_updateStateRun (obsBeh : ObserverBeh) (heap : Heap)
    (sm : StateManager) (ns : AppState) :
    errorContexts (StateManager.updateStateRun obsBeh heap sm ns).2 = [] := by
  refine List.filterMap_eq_nil_iff.mpr ?_
  intro s hs
  have h := updateStateRun_mem obsBeh heap sm ns s hs
  cases s <;>
    simp_all [isStateStoreStep, isNotifyStep, isConnEv, isThreadSelEv, isStateChangedEv]

/-- C6 (amended).  When the seed fetch of `initialize` raises: the
controller never reaches `_start_polling()` (it sits after the fetch inside
the `try`), so the periodic polling loop is not entered and
`_polling_active` stays `False`; the `ERROR_OCCURRED` events published carry
the contexts `initialize_threads` (message service), `thread_initialization`
(thread manager) and `controller_initialization` (controller), none of which
is `initialization`; and the controller directly sets the connection state
to `Error`, where it stays, since no poll ever runs. -/
theorem initializeCtrl_seedFail (obsBeh : ObserverBeh) (freshRef : Nat)
    (w : CtrlWorld) (h : w.polling_active = false) :
    (initializeCtrl obsBeh freshRef SeedOutcome.seedFail w).1.polling_active = false ∧
    errorContexts (initializeCtrl obsBeh freshRef SeedOutcome.seedFail w).2 =
      ["initialize_threads", "thread_initialization", "controller_initialization"] ∧
    (initializeCtrl obsBeh freshRef SeedOutcome.seedFail w).1.mw.sm.state.connection_state =
      ConnectionState.error := by
  refine ⟨by simp [initializeCtrl, h], ?_, ?_⟩
  · simp [initializeCtrl, publishError, handleErrorEvent, ctrlUpdateConn,
      errorContexts_append, errorContexts_cons_err, errorContexts_updateStateRun]
  · simp [initializeCtrl, publishError, handleErrorEvent, ctrlUpdateConn,
      updateStateRun_eq]

/-- C6 witness: concrete instantiation of the amended theorem on a fresh
controller world. -/
theorem initializeCtrl_seedFail_witness :
    (initializeCtrl (fun _ _ => Except.ok ()) 1 SeedOutcome.seedFail {}).1.polling_active = false ∧
    errorContexts (initializeCtrl (fun _ _ => Except.ok ()) 1 SeedOutcome.seedFail {}).2 =
      ["initialize_threads", "thread_initialization", "controller_initialization"] ∧
    (initializeCtrl (fun _ _ => Except.ok ()) 1 SeedOutcome.seedFail {}).1.mw.sm.state.connection_state =
      ConnectionState.error :=
  initializeCtrl_seedFail (fun _ _ => Except.ok ()) 1 {} rfl

/-- C6 counterexample: on a fresh controller (polling inactive) whose seed
fetch fails, the polling loop is not entered — `_polling_active` is still
`False` after `initialize` returns — and no published `ERROR_OCCURRED`
event carries the context `initialization`, refuting both the
enters-the-loop part and the context part of the claim. -/
theorem initializeCtrl_seedFail_claim_false :
    (initializeCtrl (fun _ _ => Except.ok ()) 1 SeedOutcome.seedFail {}).1.polling_active = false ∧
    "initialization" ∉
      errorContexts (initializeCtrl (fun _ _ => Except.ok ()) 1 SeedOutcome.seedFail {}).2 := by
  constructor
  · rfl
  · decide

theorem stateChangedFlags_append (a b : List Step) :
    stateChangedFlags (a ++ b) = stateChangedFlags a ++ stateChangedFlags b :=
  List.filterMap_append a b _

theorem stateChangedFlags_notifyMap (b : Nat → Bool) (obs : List Nat) :
    stateChangedFlags (obs.map (fun i => Step.notifyObserver i (b i))) = [] := by
  refine List.filterMap_eq_nil_iff.mpr ?_
  intro s hs
  obtain ⟨i, _, rfl⟩ := List.mem_map.mp hs
  rfl

theorem stateChangedFlags_cons_merge (tg : String) (msgs : List Message)
    (rest : List Step) :
    stateChangedFlags (Step.mergeIntoThread tg msgs :: rest) =
      stateChangedFlags rest := by
  simp [stateChangedFlags]

theorem stateChangedFlags_threadUpdated (tg : String) (n : Nat) :
    stateChangedFlags [Step.publishThreadUpdated tg n] = [] := by
  simp [stateChangedFlags]

theorem stateChangedFlags_updateStateRun (obsBeh : ObserverBeh) (heap : Heap)
    (sm : StateManager) (ns : AppState) :
    stateChangedFlags (StateManager.updateStateRun obsBeh heap sm ns).2 =
      [computeChanges heap sm.state ns] := by
  rw [updateStateRun_eq]
  rw [stateChangedFlags_append]
  rw [stateChangedFlags_notifyMap]
  by_cases hc : (computeChanges heap sm.state ns).connection_changed = true <;>
    by_cases ht : (computeChanges heap sm.state ns).thread_changed = true <;>
      simp [hc, ht, stateChangedFlags_append, stateChangedFlags]

/-- C10.  Every `ThreadManager.update_thread` call passes the manager's own
`_threads` dict object into the new `AppState`; once the state already
holds that same dict object (as it does after any earlier mirror), the
value comparison `old_state.threads != updated_state.threads` inside
`update_state` compares the object with itself and yields `False`, so the
single `STATE_CHANGED` event reports `threads_changed = False` (indeed an
all-false diff) — even though the messages were appended to the thread
in place (second conjunct). -/
theorem updateThread_threadsChange_not_reported (obsBeh : ObserverBeh)
    (w : MgrWorld) (guid : String) (msgs : List Message)
    (h : w.sm.state.threadsRef = w.threadsRef) :
    stateChangedFlags (updateThread obsBeh w guid msgs).2 =
      [{ connection_changed := false, thread_changed := false,
         polling_changed := false, threads_changed := false }] ∧
    ((dictGet ((updateThread obsBeh w guid msgs).1.heap w.threadsRef) guid).map
        (fun t => t.messages)) =
      some ((((dictGet (w.heap w.threadsRef) guid).map (fun t => t.messages)).getD [])
        ++ msgs) := by
  constructor
  · simp only [updateThread, stateChangedFlags_cons_merge, stateChangedFlags_append,
      stateChangedFlags_updateStateRun, stateChangedFlags_threadUpdated]
    simp [computeChanges, h]
  · cases hd : dictGet (w.heap w.threadsRef) guid with
    | some t =>
        simp [updateThread, hd, heapSet, dictGet_dictSet, foldl_addMessage]
    | none =>
        simp [updateThread, hd, heapSet, dictGet_dictSet, foldl_addMessage]

/-- C10 witness: a world whose state already mirrors the manager's dict
(reference 0) and holds a thread with one message; appending a second
message through `update_thread` changes the thread's content but the
`STATE_CHANGED` diff still reports nothing changed. -/
theorem updateThread_threadsChange_not_reported_witness :
    stateChangedFlags (updateThread okObs mirroredWorld "T" [msgB]).2 =
      [{ connection_changed := false, thread_changed := false,
         polling_changed := false, threads_changed := false }] ∧
    ((dictGet ((updateThread okObs mirroredWorld "T" [msgB]).1.heap
        mirroredWorld.threadsRef) "T").map (fun t => t.messages)) =
      some ((((dictGet (mirroredWorld.heap mirroredWorld.threadsRef) "T").map
        (fun t => t.messages)).getD []) ++ [msgB]) :=
  updateThread_threadsChange_not_reported okObs mirroredWorld "T" [msgB] rfl

/-- C2 counterexample: a thread holding a message with timestamp 100
receives, through `update_thread`, a message with timestamp 50; the
resulting sequence is `[ts 100, ts 50]`, which is not non-decreasing by
timestamp — `update_thread` performs no re-sort. -/
theorem updateThread_not_sorted :
    ((dictGet ((updateThread okObs mirroredWorld "T" [msgEarly]).1.heap
        mirroredWorld.threadsRef) "T").map (fun t => t.messages)) =
      some [msgA, msgEarly] ∧
    sortedByTs [msgA, msgEarly] = false := by
  constructor
  · simp [updateThread, mirroredWorld, threadT, heapSet, dictGet, dictSet,
      foldl_addMessage, Thread.addMessage, updateStateRun_eq]
  · decide

/-- C2 (amended).  After every `update_thread(guid, msgs)` call the thread's
message sequence is the previous sequence (empty for a thread created by
this call) with the incoming messages appended in delivery order;
`update_thread` never re-sorts, so the sequence is non-decreasing by
timestamp only when the appended messages happen to keep it so (sorting
happens separately, at display time). -/
theorem updateThread_appends_in_order (obsBeh : ObserverBeh) (w : MgrWorld)
    (guid : String) (msgs : List Message) :
    ((dictGet ((updateThread obsBeh w guid msgs).1.heap w.threadsRef) guid).map
        (fun t => t.messages)) =
      some ((((dictGet (w.heap w.threadsRef) guid).map (fun t => t.messages)).getD [])
        ++ msgs) := by
  cases hd : dictGet (w.heap w.threadsRef) guid <;>
    simp [updateThread, hd, heapSet, dictGet_dictSet, foldl_addMessage]

theorem sameIdentity_self (m : Message) : sameIdentity m m = true := by
  cases hm : m.message_id <;> simp [sameIdentity, hm]

/-- C1 counterexample: a message carrying a message id (`m1`) but no
transport guid is delivered in two successive poll cycles.  Both deliveries
have the same identity under the claimed rule (second conjunct: matching
ids).  Yet `poll_messages` skips every record whose `guid` field is missing
(`if not message.guid: continue`), so the message is never merged at all:
after both deliveries the registry holds no thread `T` — zero entries, not
the exactly one the claim asserts. -/
theorem pollCycle_dedup_claim_false :
    dictGet ((pollCycle okObs 200
        (pollCycle okObs 100 {} [("T", [rawNoGuid])]).1
        [("T", [rawNoGuid])]).1.mw.heap
        ((pollCycle okObs 200 (pollCycle okObs 100 {} [("T", [rawNoGuid])]).1
          [("T", [rawNoGuid])]).1.mw.threadsRef)) "T" = none ∧
    sameIdentity (processMessage 100 rawNoGuid) (processMessage 200 rawNoGuid) = true := by
  constructor
  · rfl
  · decide

/-- C1 (amended).  The poll path deduplicates on the transport `guid`
alone, against the service's message cache: a record with a non-empty guid
delivered once per poll response in two successive cycles is merged exactly
once — after both deliveries the thread holds exactly the one message built
from the first delivery (and so exactly one entry with its identity).
Records without a guid are never merged at all, and the dedup key is the
guid, not the id/composite identity of the specification. -/
theorem pollCycle_guid_dedup (obsBeh : ObserverBeh) (raw : RawMessage)
    (g tg : String) (now1 now2 : ℚ) (h1 : raw.guid = some g) (h2 : g ≠ "") :
    ((dictGet ((pollCycle obsBeh now2
        (pollCycle obsBeh now1 {} [(tg, [raw])]).1 [(tg, [raw])]).1.mw.heap
        ((pollCycle obsBeh now2 (pollCycle obsBeh now1 {} [(tg, [raw])]).1
          [(tg, [raw])]).1.mw.threadsRef)) tg).map (fun t => t.messages)) =
      some [processMessage now1 raw] ∧
    List.countP (fun x => sameIdentity x (processMessage now1 raw))
      [processMessage now1 raw] = 1 := by
  constructor
  · simp [pollCycle, MessageService.pollMessages, pollThreadMessages,
      processMessage, h1, h2, updateThread, heapSet, dictGet, dictSet,
      cacheGet, cacheSet, strLookup, foldl_addMessage, Thread.addMessage,
      updateStateRun_eq]
  · simp [List.countP_cons, sameIdentity_self]

/-- C1 witness: concrete instantiation of the amended theorem with a
guid-carrying record delivered in two successive cycles. -/
theorem pollCycle_guid_dedup_witness :
    ((dictGet ((pollCycle okObs 200
        (pollCycle okObs 100 {} [("T1", [rawG])]).1 [("T1", [rawG])]).1.mw.heap
        ((pollCycle okObs 200 (pollCycle okObs 100 {} [("T1", [rawG])]).1
          [("T1", [rawG])]).1.mw.threadsRef)) "T1").map (fun t => t.messages)) =
      some [processMessage 100 rawG] ∧
    List.countP (fun x => sameIdentity x (processMessage 100 rawG))
      [processMessage 100 rawG] = 1 :=
  pollCycle_guid_dedup okObs rawG "g1" "T1" 100 200 rfl (by decide)

theorem pollMessages_trace_MR (now : ℚ) (svc : MessageService) (snap : Snapshot) :
    ∀ s ∈ (MessageService.pollMessages now svc snap).2.2,
      isMessageReceivedStep s = true := by
  unfold MessageService.pollMessages
  have aux : ∀ (l : Snapshot)
      (acc : MessageService × (List (String × List Message) × List Step)),
      (∀ s ∈ acc.2.2, isMessageReceivedStep s = true) →
      ∀ s ∈ (l.foldl (fun acc entry =>
          let tg := entry.1
          let cached := cacheGet acc.1.message_cache tg
          let processed := pollThreadMessages now cached entry.2
          let svcNext : MessageService :=
            { acc.1 with message_cache := cacheSet acc.1.message_cache tg processed.2 }
          if processed.1 = [] then (svcNext, acc.2.1, acc.2.2)
          else
            (svcNext, acc.2.1 ++ [(tg, processed.1)],
              acc.2.2 ++ processed.1.map (fun m => Step.publishMessageReceived tg m)))
        acc).2.2, isMessageReceivedStep s = true := by
    intro l
    induction l with
    | nil => intro acc hacc; exact hacc
    | cons e rest ih =>
        intro acc hacc
        rw [List.foldl_cons]
        apply ih
        dsimp only
        split
        · exact hacc
        · intro s hs
          rcases List.mem_append.mp hs with h | h
          · exact hacc s h
          · obtain ⟨m, _, rfl⟩ := List.mem_map.mp h
            rfl
  exact aux snap (svc, ([], [])) (by intro s hs; cases hs)

theorem updateThread_trace_noMR (obsBeh : ObserverBeh) (w : MgrWorld)
    (guid : String) (msgs : List Message) :
    ∀ s ∈ (updateThread obsBeh w guid msgs).2,
      isMessageReceivedStep s = false := by
  intro s hs
  simp only [updateThread, List.mem_cons, List.mem_append] at hs
  rcases hs with (rfl | hs) | hs
  · rfl
  · have h := updateStateRun_mem _ _ _ _ s hs
    cases s <;>
      simp_all [isStateStoreStep, isNotifyStep, isConnEv, isThreadSelEv,
        isStateChangedEv, isMessageReceivedStep]
  · rcases hs with rfl | hs
    · rfl
    · cases hs

theorem mergeFold_trace_noMR (obsBeh : ObserverBeh)
    (l : List (String × List Message)) (p : MgrWorld × List Step)
    (hp : ∀ s ∈ p.2, isMessageReceivedStep s = false) :
    ∀ s ∈ (l.foldl (fun acc entry =>
        ((updateThread obsBeh acc.1 entry.1 entry.2).1,
          acc.2 ++ (updateThread obsBeh acc.1 entry.1 entry.2).2)) p).2,
      isMessageReceivedStep s = false := by
  induction l generalizing p with
  | nil => exact hp
  | cons e rest ih =>
      rw [List.foldl_cons]
      apply ih
      intro s hs
      rcases List.mem_append.mp hs with h | h
      · exact hp s h
      · exact updateThread_trace_noMR obsBeh p.1 e.1 e.2 s h

/-- C3 (amended).  Within one poll cycle the order is the reverse of the
claimed one: `poll_messages` publishes the `MESSAGE_RECEIVED` event for
every newly detected message while it is still polling, and only after it
returns does the controller merge the updates into the Thread Registry via
`update_thread` — every `MESSAGE_RECEIVED` publication of a cycle precedes
every registry merge of that cycle, so a subscriber reacting synchronously
to the event can observe a registry that does not yet contain the
message. -/
theorem pollCycle_events_precede_merges (obsBeh : ObserverBeh) (now : ℚ)
    (w : SyncWorld) (snap : Snapshot) (i j : Nat)
    (hMR : ∃ tg m, (pollCycle obsBeh now w snap).2[i]? =
      some (Step.publishMessageReceived tg m))
    (hMerge : ∃ tg msgs, (pollCycle obsBeh now w snap).2[j]? =
      some (Step.mergeIntoThread tg msgs)) :
    i < j := by
  obtain ⟨tg, m, hi⟩ := hMR
  obtain ⟨tg', msgs, hj⟩ := hMerge
  have htr : (pollCycle obsBeh now w snap).2 =
      (MessageService.pollMessages now w.svc snap).2.2 ++
        ((MessageService.pollMessages now w.svc snap).2.1.foldl
          (fun acc entry =>
            ((updateThread obsBeh acc.1 entry.1 entry.2).1,
              acc.2 ++ (updateThread obsBeh acc.1 entry.1 entry.2).2))
          (w.mw, [])).2 := rfl
  rw [htr] at hi hj
  rw [List.getElem?_append] at hi hj
  have hilt : i < (MessageService.pollMessages now w.svc snap).2.2.length := by
    by_contra hc
    rw [if_neg hc] at hi
    have hmem := List.getElem?_mem hi
    have := mergeFold_trace_noMR obsBeh
      (MessageService.pollMessages now w.svc snap).2.1 (w.mw, [])
      (by intro s hs; cases hs) _ hmem
    simp [isMessageReceivedStep] at this
  have hjge : ¬ j < (MessageService.pollMessages now w.svc snap).2.2.length := by
    intro hc
    rw [if_pos hc] at hj
    have hmem := List.getElem?_mem hj
    have := pollMessages_trace_MR now w.svc snap _ hmem
    simp [isMessageReceivedStep] at this
  exact lt_of_lt_of_le hilt (le_of_not_lt hjge)

/-- C3 counterexample: one poll cycle over an empty registry detecting one
new message.  The cycle's trace publishes `MESSAGE_RECEIVED` first (index
0) and merges the message into the registry afterwards, so the claimed
merge-before-publish ordering is violated. -/
theorem pollCycle_merge_after_event :
    mergesPrecedeEvents ((pollCycle okObs 100 {} [("T", [rawG])]).2) = false := by
  decide

/-- C3 witness: in the same concrete cycle, the `MESSAGE_RECEIVED`
publication at index 0 precedes the merge at index 1, instantiating the
amended ordering theorem. -/
theorem pollCycle_events_precede_merges_witness :
    (pollCycle okObs 100 {} [("T", [rawG])]).2[0]? =
        some (Step.publishMessageReceived "T" (processMessage 100 rawG)) ∧
    (pollCycle okObs 100 {} [("T", [rawG])]).2[1]? =
        some (Step.mergeIntoThread "T" [processMessage 100 rawG]) ∧
    (0 : Nat) < 1 :=
  ⟨rfl, rfl,
    pollCycle_events_precede_merges okObs 100 {} [("T", [rawG])] 0 1
      ⟨"T", processMessage 100 rawG, rfl⟩
      ⟨"T", [processMessage 100 rawG], rfl⟩⟩

end Theorems

end WiniMessage
